import Mathlib

/-!
# PDF4QT glassmorphism widgets: a shallow embedding

Source: `Pdf4QtLibWidgets/sources/pdfglassmorphismwidget.{h,cpp}`.

Two classes are embedded:

* `PDFGlassmorphismStyle` (a `QProxyStyle`): `isDarkTheme`, `drawPrimitive`.
  The painter is modelled by the list of paint operations a call issues.
* `PDFGlassmorphismToolbar` (a `QWidget`): the member variables of the class
  together with the part of the toolkit state its methods read and write
  (window origin, visibility, layout contents, the fade animation, the
  auto-hide timer, the connections on the animation's `finished` signal).

`paintEvent` and `drawControl` are left out: the first only paints from the
state without changing it, the second only forwards to the base style.

Conventions.

* C++ `int` is `Int`; signed overflow is undefined behaviour in C++, so the
  arithmetic is the mathematical one on the values where the C++ arithmetic
  is defined.  `/` on `int` truncates toward zero: `Int.tdiv`.
* `qreal` is `ℚ`: the code only compares, clamps and linearly interpolates
  opacities, which is exact on rationals.
* A `QToolBar*` is `Option Nat`: `none` is `nullptr`, `some t` the toolbar
  object with identity `t`.
* Toolkit calls (`move`, `show`, `QTimer::start`, ...) are small definitions
  named after the call; methods of the classes keep their source names.
-/

namespace pdfviewer

/-! ## Toolkit value types -/

/-- Integer point (`QPoint`). -/
structure QPoint where
  x : Int
  y : Int
deriving DecidableEq, Repr

/-- Componentwise difference, `QPoint operator-`. -/
def QPoint.sub (a b : QPoint) : QPoint := ⟨a.x - b.x, a.y - b.y⟩

/-- Componentwise sum, `QPoint operator+`. -/
def QPoint.add (a b : QPoint) : QPoint := ⟨a.x + b.x, a.y + b.y⟩

instance : Sub QPoint := ⟨QPoint.sub⟩
instance : Add QPoint := ⟨QPoint.add⟩

/-- Integer size (`QSize`). -/
structure QSize where
  width : Int
  height : Int
deriving DecidableEq, Repr

/-- Integer rectangle (`QRect`), stored as its two corners like Qt does. -/
structure QRect where
  x1 : Int
  y1 : Int
  x2 : Int
  y2 : Int
deriving DecidableEq, Repr

/-- Width of a rectangle, `QRect::width()`: `x2 - x1 + 1`. -/
def QRect.width (r : QRect) : Int := r.x2 - r.x1 + 1

/-- Height of a rectangle, `QRect::height()`: `y2 - y1 + 1`. -/
def QRect.height (r : QRect) : Int := r.y2 - r.y1 + 1

/-- Colour with alpha, `QColor(r, g, b, a)`. -/
structure QColor where
  r : Nat
  g : Nat
  b : Nat
  a : Nat
deriving DecidableEq, Repr

/-- Application palette as far as the code reads it: the value of
`QApplication::palette().color(QPalette::Window).lightness()`. -/
structure QPalette where
  windowLightness : Int
deriving DecidableEq, Repr

/-- Smaller of two values, Qt `qMin`: `(a < b) ? a : b`. -/
def qMin (a b : ℚ) : ℚ := if a < b then a else b

/-- Larger of two values, Qt `qMax`: `(a < b) ? b : a`. -/
def qMax (a b : ℚ) : ℚ := if a < b then b else a

/-- Clamp, Qt `qBound(min, val, max)`: `qMax(min, qMin(max, val))`. -/
def qBound (min val max : ℚ) : ℚ := qMax min (qMin max val)

/-! ## PDFGlassmorphismStyle -/

/-- Primitive elements of `QStyle`: the one the style intercepts, and the rest
by their enum value. -/
inductive PrimitiveElement
  | PE_PanelButtonTool
  | PE_Other (code : Nat)
deriving DecidableEq, Repr

/-- State flag `QStyle::State_Sunken` (0x00000004). -/
def State_Sunken : Nat := 0x4

/-- State flag `QStyle::State_MouseOver` (0x00002000). -/
def State_MouseOver : Nat := 0x2000

/-- Fields of `QStyleOption` the style reads: the rectangle and the state flags. -/
structure QStyleOption where
  rect : QRect
  state : Nat
deriving DecidableEq, Repr

/-- Test of a flag, the C++ condition `option->state & flag`. -/
def QStyleOption.testFlag (o : QStyleOption) (flag : Nat) : Bool :=
  (o.state &&& flag) != 0

/-- Painter path built by one `addRoundedRect(rect, xRadius, yRadius)`. -/
structure QPainterPath where
  rect : QRect
  xRadius : Nat
  yRadius : Nat
deriving DecidableEq, Repr

/-- Paint operations a `drawPrimitive` call issues, in order. -/
inductive PaintOp
  /-- Call `painter->setRenderHint(QPainter::Antialiasing)`. -/
  | setRenderHintAntialiasing
  /-- Call `painter->fillPath(path, color)`. -/
  | fillPath (path : QPainterPath) (color : QColor)
  /-- Call `QProxyStyle::drawPrimitive(element, option, painter, widget)`. -/
  | baseDrawPrimitive (element : PrimitiveElement) (option : Option QStyleOption)
deriving DecidableEq, Repr

/-- Theme test `PDFGlassmorphismStyle::isDarkTheme`. -/
def PDFGlassmorphismStyle.isDarkTheme (palette : QPalette) : Bool :=
  decide (palette.windowLightness < 128)

/-- Drawing of a primitive, `PDFGlassmorphismStyle::drawPrimitive`; the result is
the sequence of operations issued on the painter. -/
def PDFGlassmorphismStyle.drawPrimitive (palette : QPalette) (element : PrimitiveElement)
    (option : Option QStyleOption) : List PaintOp :=
  match element, option with
  | .PE_PanelButtonTool, some opt =>
    let rect := opt.rect
    let path : QPainterPath := ⟨rect, 6, 6⟩
    let hover : List PaintOp :=
      if opt.testFlag State_MouseOver then
        let hoverColor : QColor :=
          if PDFGlassmorphismStyle.isDarkTheme palette then ⟨80, 80, 85, 100⟩
          else ⟨200, 200, 200, 100⟩
        [PaintOp.fillPath path hoverColor]
      else []
    let press : List PaintOp :=
      if opt.testFlag State_Sunken then
        let pressColor : QColor :=
          if PDFGlassmorphismStyle.isDarkTheme palette then ⟨60, 60, 65, 150⟩
          else ⟨180, 180, 180, 150⟩
        [PaintOp.fillPath path pressColor]
      else []
    [PaintOp.setRenderHintAntialiasing] ++ hover ++ press
  | _, _ => [PaintOp.baseDrawPrimitive element option]

/-! ## PDFGlassmorphismToolbar: state -/

/-- Anchor of the floating toolbar, `PDFGlassmorphismToolbar::Position`. -/
inductive Position
  | TopCenter
  | TopLeft
  | TopRight
  | BottomCenter
  | BottomLeft
  | BottomRight
deriving DecidableEq, Repr

/-- Parent of a hosted toolbar object: `nullptr`, the container itself, or
another widget. -/
inductive ParentRef
  | null
  | container
  | other (id : Nat)
deriving DecidableEq, Repr

/-- Mouse buttons of `Qt::MouseButton` the handlers can receive. -/
inductive MouseButton
  | NoButton
  | LeftButton
  | RightButton
  | MiddleButton
deriving DecidableEq, Repr

/-- Fields of `QMouseEvent` the handlers read: `button()` and
`globalPosition().toPoint()`. -/
structure QMouseEvent where
  button : MouseButton
  globalPosition : QPoint
deriving DecidableEq, Repr

/-- State of a `PDFGlassmorphismToolbar` object: its member variables (`m_...`),
the state of the `QWidget` it is, of its layout, of `m_fadeAnimation` and of
`m_autoHideTimer`, and the parent and style sheet of the toolbar objects. -/
structure PDFGlassmorphismToolbar where
  /-- Parent widget: `none` when `parentWidget()` is `nullptr`, otherwise `parentWidget()->geometry()`. -/
  parentGeometry : Option QRect
  /-- Size hint `sizeHint()` of the container, which the toolkit derives from the layout contents. -/
  sizeHintOf : List Nat → QSize
  /-- Widgets managed by `layout()`, in order. -/
  layoutItems : List Nat
  /-- Current `size()` of the window. -/
  size : QSize
  /-- Window origin: `pos()`, which is `frameGeometry().topLeft()`. -/
  pos : QPoint
  /-- Value of `isVisible()`. -/
  visible : Bool
  /-- Value of `parentWidget()` for each toolbar object. -/
  toolbarParent : Nat → ParentRef
  /-- Value of `styleSheet()` for each toolbar object. -/
  toolbarStyleSheet : Nat → String
  m_toolbar : Option Nat
  m_position : Position
  m_autoHideEnabled : Bool
  m_autoHideTimeout : Int
  m_opacity : ℚ
  m_dragging : Bool
  m_dragPosition : QPoint
  /-- Whether `m_fadeAnimation->state() == QAbstractAnimation::Running`. -/
  fadeRunning : Bool
  /-- Value of `m_fadeAnimation->startValue()`. -/
  fadeStartValue : ℚ
  /-- Value of `m_fadeAnimation->endValue()`. -/
  fadeEndValue : ℚ
  /-- Number of connections from `m_fadeAnimation`'s `finished` signal to the
  container; the only slot ever connected is the lambda of `hideAnimated`. -/
  finishedConnections : Nat
  /-- Value of `m_autoHideTimer->isActive()`: the single-shot timer is armed. -/
  timerActive : Bool
  /-- Value of `m_autoHideTimer->interval()`. -/
  timerInterval : Int
  /-- Instrumentation, not a program variable: how many times `hideAnimated`
  has been entered. -/
  hideAnimatedCalls : Nat

namespace PDFGlassmorphismToolbar

/-- Constructor `PDFGlassmorphismToolbar(QWidget* parent)`: the initialiser list
and the set-up of the animation (stopped, nothing connected to `finished`) and of
the timer (single-shot, not armed, `timeout` connected to `hideAnimated`).  The
toolkit state a fresh widget starts from is given by the arguments; window flags,
attributes, layout margins and the widget style are not part of the state. -/
def new (parentGeometry : Option QRect) (sizeHintOf : List Nat → QSize)
    (size : QSize) (pos : QPoint) (toolbarParent : Nat → ParentRef)
    (toolbarStyleSheet : Nat → String) : PDFGlassmorphismToolbar :=
  { parentGeometry := parentGeometry
    sizeHintOf := sizeHintOf
    layoutItems := []
    size := size
    pos := pos
    visible := false
    toolbarParent := toolbarParent
    toolbarStyleSheet := toolbarStyleSheet
    m_toolbar := none
    m_position := Position.TopCenter
    m_autoHideEnabled := false
    m_autoHideTimeout := 3000
    m_opacity := 1
    m_dragging := false
    m_dragPosition := ⟨0, 0⟩
    fadeRunning := false
    fadeStartValue := 0
    fadeEndValue := 0
    finishedConnections := 0
    timerActive := false
    timerInterval := 0
    hideAnimatedCalls := 0 }

/-! ### Toolkit calls -/

/-- Size hint `sizeHint()` of the container. -/
def sizeHint (s : PDFGlassmorphismToolbar) : QSize := s.sizeHintOf s.layoutItems

/-- Call `move(p)`: the window origin becomes `p`. -/
def move (s : PDFGlassmorphismToolbar) (p : QPoint) : PDFGlassmorphismToolbar :=
  { s with pos := p }

/-- Call `hide()`. -/
def hide (s : PDFGlassmorphismToolbar) : PDFGlassmorphismToolbar :=
  { s with visible := false }

/-- Call `update()`: schedules a repaint; painting changes none of the state. -/
def update (s : PDFGlassmorphismToolbar) : PDFGlassmorphismToolbar := s

/-- Call `m_autoHideTimer->start(msec)`: sets the interval and arms the timer. -/
def timerStart (s : PDFGlassmorphismToolbar) (msec : Int) : PDFGlassmorphismToolbar :=
  { s with timerActive := true, timerInterval := msec }

/-- Call `m_autoHideTimer->stop()`. -/
def timerStop (s : PDFGlassmorphismToolbar) : PDFGlassmorphismToolbar :=
  { s with timerActive := false }

/-- Call `m_fadeAnimation->stop()`: the animation leaves the running state without
having reached its end, so `finished` is not emitted. -/
def fadeStop (s : PDFGlassmorphismToolbar) : PDFGlassmorphismToolbar :=
  { s with fadeRunning := false }

/-- Call `layout()->removeWidget(w)`. -/
def layoutRemoveWidget (s : PDFGlassmorphismToolbar) (w : Nat) : PDFGlassmorphismToolbar :=
  { s with layoutItems := s.layoutItems.erase w }

/-- Call `layout()->addWidget(w)`: appends `w` to the layout and makes the
container its parent. -/
def layoutAddWidget (s : PDFGlassmorphismToolbar) (w : Nat) : PDFGlassmorphismToolbar :=
  { s with layoutItems := s.layoutItems ++ [w]
           toolbarParent := fun t => if t = w then ParentRef.container else s.toolbarParent t }

/-- Call `w->setParent(nullptr)` on a toolbar object. -/
def toolbarSetParentNull (s : PDFGlassmorphismToolbar) (w : Nat) : PDFGlassmorphismToolbar :=
  { s with toolbarParent := fun t => if t = w then ParentRef.null else s.toolbarParent t }

/-- Call `w->setStyleSheet(sheet)` on a toolbar object. -/
def toolbarSetStyleSheet (s : PDFGlassmorphismToolbar) (w : Nat) (sheet : String) :
    PDFGlassmorphismToolbar :=
  { s with toolbarStyleSheet := fun t => if t = w then sheet else s.toolbarStyleSheet t }

/-! ### Methods of the class, in dependency order -/

/-- Getter `opacity()`. -/
def opacity (s : PDFGlassmorphismToolbar) : ℚ := s.m_opacity

/-- Getter `getToolbar()`. -/
def getToolbar (s : PDFGlassmorphismToolbar) : Option Nat := s.m_toolbar

/-- Getter `getPosition()`. -/
def getPosition (s : PDFGlassmorphismToolbar) : Position := s.m_position

/-- Getter `isAutoHideEnabled()`. -/
def isAutoHideEnabled (s : PDFGlassmorphismToolbar) : Bool := s.m_autoHideEnabled

/-- Getter `getAutoHideTimeout()`. -/
def getAutoHideTimeout (s : PDFGlassmorphismToolbar) : Int := s.m_autoHideTimeout

/-- Theme test `PDFGlassmorphismToolbar::isDarkTheme`. -/
def isDarkTheme (palette : QPalette) : Bool :=
  decide (palette.windowLightness < 128)

/-- Method `updatePosition`: nothing without a parent widget; otherwise the
anchor arithmetic on the parent geometry and the size hint, then `move(x, y)`. -/
def updatePosition (s : PDFGlassmorphismToolbar) : PDFGlassmorphismToolbar :=
  match s.parentGeometry with
  | none => s
  | some parentRect =>
    let size := s.sizeHint
    let xy : Int × Int :=
      match s.m_position with
      | Position.TopCenter => ((parentRect.width - size.width).tdiv 2, 20)
      | Position.TopLeft => (20, 20)
      | Position.TopRight => (parentRect.width - size.width - 20, 20)
      | Position.BottomCenter =>
        ((parentRect.width - size.width).tdiv 2, parentRect.height - size.height - 20)
      | Position.BottomLeft => (20, parentRect.height - size.height - 20)
      | Position.BottomRight =>
        (parentRect.width - size.width - 20, parentRect.height - size.height - 20)
    s.move ⟨xy.1, xy.2⟩

/-- Method `resetAutoHideTimer`. -/
def resetAutoHideTimer (s : PDFGlassmorphismToolbar) : PDFGlassmorphismToolbar :=
  if s.m_autoHideEnabled then s.timerStart s.m_autoHideTimeout else s

/-- Handler `resizeEvent`: the base handler does nothing, then `updatePosition()`. -/
def resizeEvent (s : PDFGlassmorphismToolbar) : PDFGlassmorphismToolbar :=
  s.updatePosition

/-- Handler `showEvent`: the base handler does nothing, then `updatePosition()`
and, with auto-hide enabled, `resetAutoHideTimer()`. -/
def showEvent (s : PDFGlassmorphismToolbar) : PDFGlassmorphismToolbar :=
  let s1 := s.updatePosition
  if s1.m_autoHideEnabled then s1.resetAutoHideTimer else s1

/-- Call `show()`: a hidden widget becomes visible and receives `showEvent`; a
visible one is left alone. -/
def showWidget (s : PDFGlassmorphismToolbar) : PDFGlassmorphismToolbar :=
  if s.visible then s else showEvent { s with visible := true }

/-- Call `resize(sz)`: the size is stored; a visible widget whose size changed
receives `resizeEvent` (for a hidden one the event is withheld until it is shown,
where `showEvent` recomputes the position anyway). -/
def resize (s : PDFGlassmorphismToolbar) (sz : QSize) : PDFGlassmorphismToolbar :=
  if s.visible && decide (s.size ≠ sz) then resizeEvent { s with size := sz }
  else { s with size := sz }

/-- Call `adjustSize()`: resizes the widget to its size hint. -/
def adjustSize (s : PDFGlassmorphismToolbar) : PDFGlassmorphismToolbar :=
  s.resize s.sizeHint

/-- Method `setToolbar`. -/
def setToolbar (s : PDFGlassmorphismToolbar) (toolbar : Option Nat) :
    PDFGlassmorphismToolbar :=
  if s.m_toolbar = toolbar then s
  else
    let s1 :=
      match s.m_toolbar with
      | some old => (s.layoutRemoveWidget old).toolbarSetParentNull old
      | none => s
    let s2 := { s1 with m_toolbar := toolbar }
    match s2.m_toolbar with
    | some t =>
      ((s2.layoutAddWidget t).toolbarSetStyleSheet t
        "QToolBar \x7b background: transparent; border: none; \x7d").adjustSize
    | none => s2

/-- Method `setPosition`. -/
def setPosition (s : PDFGlassmorphismToolbar) (position : Position) :
    PDFGlassmorphismToolbar :=
  updatePosition { s with m_position := position }

/-- Method `setAutoHideEnabled`. -/
def setAutoHideEnabled (s : PDFGlassmorphismToolbar) (enabled : Bool) :
    PDFGlassmorphismToolbar :=
  let s1 := { s with m_autoHideEnabled := enabled }
  if enabled then s1.resetAutoHideTimer else s1.timerStop

/-- Method `setAutoHideTimeout`. -/
def setAutoHideTimeout (s : PDFGlassmorphismToolbar) (milliseconds : Int) :
    PDFGlassmorphismToolbar :=
  { s with m_autoHideTimeout := milliseconds }

/-- Method `setOpacity`, also the write accessor of the `opacity` property the
fade animation drives. -/
def setOpacity (s : PDFGlassmorphismToolbar) (opacity : ℚ) : PDFGlassmorphismToolbar :=
  update { s with m_opacity := qBound 0 opacity 1 }

/-- Call `m_fadeAnimation->start()`: the animation enters the running state at
time 0 and writes its start value to the property. -/
def fadeStart (s : PDFGlassmorphismToolbar) : PDFGlassmorphismToolbar :=
  setOpacity { s with fadeRunning := true } s.fadeStartValue

/-- Method `showAnimated`. -/
def showAnimated (s : PDFGlassmorphismToolbar) : PDFGlassmorphismToolbar :=
  let s1 := s.showWidget
  let s2 := s1.fadeStop
  let s3 := { s2 with fadeStartValue := s2.m_opacity }
  let s4 := { s3 with fadeEndValue := 1 }
  s4.fadeStart

/-- Slot connected by `hideAnimated` to `finished`: the lambda
`[this]() { hide(); disconnect(m_fadeAnimation, finished, this, nullptr); }`.
The `disconnect` removes every connection from `finished` to the container. -/
def hideAnimatedFinished (s : PDFGlassmorphismToolbar) : PDFGlassmorphismToolbar :=
  { s.hide with finishedConnections := 0 }

/-- Method `hideAnimated`. -/
def hideAnimated (s : PDFGlassmorphismToolbar) : PDFGlassmorphismToolbar :=
  let s0 := { s with hideAnimatedCalls := s.hideAnimatedCalls + 1 }
  let s1 := s0.fadeStop
  let s2 := { s1 with fadeStartValue := s1.m_opacity }
  let s3 := { s2 with fadeEndValue := 0 }
  let s4 := { s3 with finishedConnections := s3.finishedConnections + 1 }
  s4.fadeStart

/-- Handler `mousePressEvent`. -/
def mousePressEvent (s : PDFGlassmorphismToolbar) (event : QMouseEvent) :
    PDFGlassmorphismToolbar :=
  if event.button = MouseButton.LeftButton then
    { s with m_dragging := true, m_dragPosition := event.globalPosition - s.pos }
  else s

/-- Handler `mouseMoveEvent`. -/
def mouseMoveEvent (s : PDFGlassmorphismToolbar) (event : QMouseEvent) :
    PDFGlassmorphismToolbar :=
  if s.m_dragging then s.move (event.globalPosition - s.m_dragPosition) else s

/-- Handler `mouseReleaseEvent`. -/
def mouseReleaseEvent (s : PDFGlassmorphismToolbar) (event : QMouseEvent) :
    PDFGlassmorphismToolbar :=
  if event.button = MouseButton.LeftButton then { s with m_dragging := false } else s

/-- Handler `enterEvent`. -/
def enterEvent (s : PDFGlassmorphismToolbar) : PDFGlassmorphismToolbar :=
  if s.m_autoHideEnabled then
    let s1 := s.timerStop
    if s1.m_opacity < 1 then s1.showAnimated else s1
  else s

/-- Handler `leaveEvent`. -/
def leaveEvent (s : PDFGlassmorphismToolbar) : PDFGlassmorphismToolbar :=
  if s.m_autoHideEnabled then s.resetAutoHideTimer else s

/-! ### What the event loop does with the timer and the animation -/

/-- Delivery of `finished` to the connections that existed when the signal was
emitted, in connection order: `n` connections are still to be visited, `i` is
the index of the next one; a connection removed by an earlier slot of the same
emission is skipped. -/
def deliverFinished : Nat → Nat → PDFGlassmorphismToolbar → PDFGlassmorphismToolbar
  | 0, _, s => s
  | n + 1, i, s =>
    deliverFinished n (i + 1) (if i < s.finishedConnections then s.hideAnimatedFinished else s)

/-- Emission of `m_fadeAnimation`'s `finished` signal. -/
def emitFinished (s : PDFGlassmorphismToolbar) : PDFGlassmorphismToolbar :=
  deliverFinished s.finishedConnections 0 s

/-- An intermediate frame of the running fade animation: the property is written
with the value interpolated between start and end value at eased progress
`progress`, `start + (end - start) * progress`.  Nothing happens when the
animation is not running. -/
def animationTick (s : PDFGlassmorphismToolbar) (progress : ℚ) : PDFGlassmorphismToolbar :=
  if s.fadeRunning then
    s.setOpacity (s.fadeStartValue + (s.fadeEndValue - s.fadeStartValue) * progress)
  else s

/-- The running fade animation reaches the end of its duration: the property is
written with the end value, the animation stops, and `finished` is emitted.
Nothing happens when the animation is not running. -/
def animationFinished (s : PDFGlassmorphismToolbar) : PDFGlassmorphismToolbar :=
  if s.fadeRunning then
    let s1 := s.setOpacity s.fadeEndValue
    let s2 := { s1 with fadeRunning := false }
    s2.emitFinished
  else s

/-- The armed single-shot timer `m_autoHideTimer` fires: it is disarmed and its
`timeout` signal runs the connected slot `hideAnimated`.  A timer that is not
armed does not fire. -/
def timerTimeout (s : PDFGlassmorphismToolbar) : PDFGlassmorphismToolbar :=
  if s.timerActive then hideAnimated { s with timerActive := false } else s

/-- Everything that can happen to the container: owner calls of the public
methods, events delivered to the overridden handlers, and the firing of the
timer and the progress of the animation. -/
inductive Event
  | setToolbar (toolbar : Option Nat)
  | setPosition (position : Position)
  | setAutoHideEnabled (enabled : Bool)
  | setAutoHideTimeout (milliseconds : Int)
  | setOpacity (opacity : ℚ)
  | showAnimated
  | hideAnimated
  | showWidget
  | hideWidget
  | resizeWidget (sz : QSize)
  | mousePressEvent (event : QMouseEvent)
  | mouseMoveEvent (event : QMouseEvent)
  | mouseReleaseEvent (event : QMouseEvent)
  | enterEvent
  | leaveEvent
  | resizeEvent
  | showEvent
  | timerTimeout
  | animationTick (progress : ℚ)
  | animationFinished

/-- One step of the container on an event. -/
def step (s : PDFGlassmorphismToolbar) : Event → PDFGlassmorphismToolbar
  | Event.setToolbar toolbar => s.setToolbar toolbar
  | Event.setPosition position => s.setPosition position
  | Event.setAutoHideEnabled enabled => s.setAutoHideEnabled enabled
  | Event.setAutoHideTimeout milliseconds => s.setAutoHideTimeout milliseconds
  | Event.setOpacity opacity => s.setOpacity opacity
  | Event.showAnimated => s.showAnimated
  | Event.hideAnimated => s.hideAnimated
  | Event.showWidget => s.showWidget
  | Event.hideWidget => s.hide
  | Event.resizeWidget sz => s.resize sz
  | Event.mousePressEvent event => s.mousePressEvent event
  | Event.mouseMoveEvent event => s.mouseMoveEvent event
  | Event.mouseReleaseEvent event => s.mouseReleaseEvent event
  | Event.enterEvent => s.enterEvent
  | Event.leaveEvent => s.leaveEvent
  | Event.resizeEvent => s.resizeEvent
  | Event.showEvent => s.showEvent
  | Event.timerTimeout => s.timerTimeout
  | Event.animationTick progress => s.animationTick progress
  | Event.animationFinished => s.animationFinished

/-- The container after a sequence of events, oldest first. -/
def run (s : PDFGlassmorphismToolbar) (events : List Event) : PDFGlassmorphismToolbar :=
  events.foldl step s

end PDFGlassmorphismToolbar

/-! ## Vocabulary of the specification -/

/-- The Left anchors. -/
def Position.isLeft : Position → Bool
  | Position.TopLeft | Position.BottomLeft => true
  | _ => false

/-- The Right anchors. -/
def Position.isRight : Position → Bool
  | Position.TopRight | Position.BottomRight => true
  | _ => false

/-- The Center anchors. -/
def Position.isCenter : Position → Bool
  | Position.TopCenter | Position.BottomCenter => true
  | _ => false

/-- The Top anchors. -/
def Position.isTop : Position → Bool
  | Position.TopCenter | Position.TopLeft | Position.TopRight => true
  | _ => false

/-- The Bottom anchors. -/
def Position.isBottom : Position → Bool
  | Position.BottomCenter | Position.BottomLeft | Position.BottomRight => true
  | _ => false

/-- A style option with rectangle 24x24 at the origin and no state flag set. -/
def plainButtonOption : QStyleOption := ⟨⟨0, 0, 23, 23⟩, 0⟩

/-- Hover overlay of a tool button by theme (source line 66): the
semi-transparent colour filled under the pointer. -/
def hoverOverlay (dark : Bool) : QColor :=
  if dark then ⟨80, 80, 85, 100⟩ else ⟨200, 200, 200, 100⟩

/-- Press overlay of a tool button by theme (source line 72): the stronger
colour filled while the button is pressed. -/
def pressOverlay (dark : Bool) : QColor :=
  if dark then ⟨60, 60, 65, 150⟩ else ⟨180, 180, 180, 150⟩

namespace PDFGlassmorphismToolbar

/-- Events other than the two that are meant to start hiding: the owner call
`setAutoHideEnabled(true)` and a direct call of `hideAnimated`. -/
def Event.keepsAutoHideOff : Event → Bool
  | Event.setAutoHideEnabled true => false
  | Event.hideAnimated => false
  | _ => true

/-- Auto-hide is off and nothing is pending: the flag is false, the timer is not
armed, and `hideAnimated` has been entered `n` times so far. -/
def Quiet (s : PDFGlassmorphismToolbar) (n : Nat) : Prop :=
  s.m_autoHideEnabled = false ∧ s.timerActive = false ∧ s.hideAnimatedCalls = n

/-- Drag sequence: a left-button press at `P0`, a mouse move to `P1` (with any
button reported by the move event) and a left-button release at `P2`. -/
def dragSequence (s : PDFGlassmorphismToolbar) (P0 P1 P2 : QPoint)
    (moveButton : MouseButton) : PDFGlassmorphismToolbar :=
  ((s.mousePressEvent ⟨MouseButton.LeftButton, P0⟩).mouseMoveEvent
    ⟨moveButton, P1⟩).mouseReleaseEvent ⟨MouseButton.LeftButton, P2⟩

/-- Owner calls `setAutoHideEnabled(true)` and then `setAutoHideEnabled(false)`. -/
def autoHideSwitchedOff (s : PDFGlassmorphismToolbar) : PDFGlassmorphismToolbar :=
  (s.setAutoHideEnabled true).setAutoHideEnabled false

/-- A fade running to completion: the given frames, then the end of the animation. -/
def fadeCompleted (s : PDFGlassmorphismToolbar) (ticks : List ℚ) :
    PDFGlassmorphismToolbar :=
  (ticks.foldl animationTick s).animationFinished

/-! ## Concrete inputs -/

/-- A fresh container in a parent of size 800x600, with size hint 200x50, no
toolbar object having a parent or a style sheet yet. -/
def freshContainer : PDFGlassmorphismToolbar :=
  PDFGlassmorphismToolbar.new (some ⟨0, 0, 799, 599⟩) (fun _ => ⟨200, 50⟩)
    ⟨640, 480⟩ ⟨0, 0⟩ (fun _ => ParentRef.null) (fun _ => "")

/-- The fresh container after `setToolbar` with toolbar object 1. -/
def hostingContainer : PDFGlassmorphismToolbar :=
  freshContainer.setToolbar (some 1)

/-- The fresh container after `show()`, `setAutoHideEnabled(true)`, the firing of
the auto-hide timer and one frame of the fade-out at progress 1/2. -/
def fadingOutContainer : PDFGlassmorphismToolbar :=
  freshContainer.run [Event.showWidget, Event.setAutoHideEnabled true,
    Event.timerTimeout, Event.animationTick (1 / 2)]

/-- A run of events and owner calls without `setAutoHideEnabled(true)` and
without `hideAnimated`. -/
def quietEvents : List Event :=
  [Event.showWidget, Event.enterEvent, Event.leaveEvent, Event.setToolbar (some 1),
    Event.timerTimeout, Event.setAutoHideTimeout 10, Event.resizeEvent, Event.leaveEvent]

/-! ## Theorems -/

/-- Helper: `updatePosition` changes at most the window origin. -/
theorem updatePosition_eq (s : PDFGlassmorphismToolbar) :
    ∃ p, s.updatePosition = { s with pos := p } := by
  unfold updatePosition
  split
  · exact ⟨s.pos, rfl⟩
  · exact ⟨_, rfl⟩

/-- Helper: `resize` stores the size and changes at most the window origin besides. -/
theorem resize_eq (s : PDFGlassmorphismToolbar) (sz : QSize) :
    ∃ p, s.resize sz = { s with size := sz, pos := p } := by
  unfold resize
  split
  · obtain ⟨p, hp⟩ := updatePosition_eq { s with size := sz }
    exact ⟨p, by rw [resizeEvent, hp]⟩
  · exact ⟨s.pos, rfl⟩

/-- Helper: after `setToolbar(toolbar)` the hosted toolbar reference is `toolbar`. -/
theorem setToolbar_m_toolbar (s : PDFGlassmorphismToolbar) (toolbar : Option Nat) :
    (s.setToolbar toolbar).m_toolbar = toolbar := by
  unfold setToolbar
  split
  · assumption
  · cases toolbar with
    | none => rfl
    | some t =>
      simp only [adjustSize]
      obtain ⟨p, hp⟩ := resize_eq
        (((({ (match s.m_toolbar with
              | some old => (s.layoutRemoveWidget old).toolbarSetParentNull old
              | none => s) with m_toolbar := some t } :
            PDFGlassmorphismToolbar).layoutAddWidget t).toolbarSetStyleSheet t
          "QToolBar \x7b background: transparent; border: none; \x7d"))
        ((({ (match s.m_toolbar with
              | some old => (s.layoutRemoveWidget old).toolbarSetParentNull old
              | none => s) with m_toolbar := some t } :
            PDFGlassmorphismToolbar).layoutAddWidget t).toolbarSetStyleSheet t
          "QToolBar \x7b background: transparent; border: none; \x7d").sizeHint
      rw [hp]
      rfl

/-- C1: for every opacity input `x`, after `setOpacity(x)` the stored opacity, as
returned by `opacity()`, is `max(0, min(1, x))`. -/
theorem setOpacity_stores_clamped (s : PDFGlassmorphismToolbar) (x : ℚ) :
    (s.setOpacity x).opacity = max 0 (min 1 x) := by
  simp only [setOpacity, update, opacity, qBound, qMax, qMin]
  by_cases h1 : (1 : ℚ) < x
  · have h0 : (0 : ℚ) < 1 := by norm_num
    simp [h1, min_eq_left (le_of_lt h1)]
  · have hx : x ≤ 1 := not_lt.mp h1
    by_cases h0 : (0 : ℚ) < x
    · simp [h1, h0, min_eq_right hx, max_eq_right (le_of_lt h0)]
    · simp [h1, h0, min_eq_right hx, max_eq_left (not_lt.mp h0)]

/-- C7: for every window-background lightness `L` (in particular for `L` in
0..255) both `isDarkTheme` functions return the same value, which is true exactly
when `L < 128`; lightness 127 gives the dark branch and 128 the light branch. -/
theorem isDarkTheme_threshold (L : Int) :
    (PDFGlassmorphismStyle.isDarkTheme ⟨L⟩ = true ↔ L < 128) ∧
    isDarkTheme ⟨L⟩ = PDFGlassmorphismStyle.isDarkTheme ⟨L⟩ ∧
    PDFGlassmorphismStyle.isDarkTheme ⟨127⟩ = true ∧
    isDarkTheme ⟨127⟩ = true ∧
    PDFGlassmorphismStyle.isDarkTheme ⟨128⟩ = false ∧
    isDarkTheme ⟨128⟩ = false := by
  refine ⟨?_, rfl, ?_, ?_, ?_, ?_⟩
  · simp [PDFGlassmorphismStyle.isDarkTheme]
  · decide
  · decide
  · decide
  · decide

/-- C2: with a parent widget of size `(W, H)` and own size hint `(w, h)`,
`setPosition(p)` stores `p` and moves the window to `(x, y)` with `x = 20` for the
Left anchors, `x = W - w - 20` for the Right anchors, `x = (W - w) / 2` (truncating
division) for the Center anchors, `y = 20` for the Top anchors and
`y = H - h - 20` for the Bottom anchors. -/
theorem setPosition_anchors (s : PDFGlassmorphismToolbar) (parentRect : QRect)
    (p : Position) (hparent : s.parentGeometry = some parentRect) :
    (s.setPosition p).getPosition = p ∧
    (p.isLeft = true → (s.setPosition p).pos.x = 20) ∧
    (p.isRight = true →
      (s.setPosition p).pos.x = parentRect.width - s.sizeHint.width - 20) ∧
    (p.isCenter = true →
      (s.setPosition p).pos.x = (parentRect.width - s.sizeHint.width).tdiv 2) ∧
    (p.isTop = true → (s.setPosition p).pos.y = 20) ∧
    (p.isBottom = true →
      (s.setPosition p).pos.y = parentRect.height - s.sizeHint.height - 20) := by
  cases p <;>
    simp [setPosition, updatePosition, hparent, move, getPosition, sizeHint,
      Position.isLeft, Position.isRight, Position.isCenter, Position.isTop,
      Position.isBottom]

/-- Witness of C2: a 800x600 parent, size hint 200x50, anchor `BottomCenter`. -/
theorem setPosition_anchors_witness :
    freshContainer.parentGeometry = some ⟨0, 0, 799, 599⟩ ∧
    (freshContainer.setPosition Position.BottomCenter).getPosition
      = Position.BottomCenter ∧
    (freshContainer.setPosition Position.BottomCenter).pos = ⟨300, 530⟩ := by
  have h := setPosition_anchors freshContainer ⟨0, 0, 799, 599⟩ Position.BottomCenter rfl
  refine ⟨rfl, h.1, ?_⟩
  have hx := h.2.2.2.1 rfl
  have hy := h.2.2.2.2.2 rfl
  have e : (freshContainer.setPosition Position.BottomCenter).pos
      = ⟨(freshContainer.setPosition Position.BottomCenter).pos.x,
         (freshContainer.setPosition Position.BottomCenter).pos.y⟩ := rfl
  rw [e, hx, hy]
  decide

/-- C8: from any state, with window origin `O = s.pos`, a left-button press at
`P0`, a mouse move to `P1` and a left-button release leave the window origin at
`O + (P1 - P0)` and the dragging flag false. -/
theorem drag_moves_by_pointer_delta (s : PDFGlassmorphismToolbar) (P0 P1 P2 : QPoint)
    (moveButton : MouseButton) :
    (s.dragSequence P0 P1 P2 moveButton).pos = s.pos + (P1 - P0) ∧
    (s.dragSequence P0 P1 P2 moveButton).m_dragging = false := by
  constructor
  · show QPoint.sub P1 (QPoint.sub P0 s.pos) = QPoint.add s.pos (QPoint.sub P1 P0)
    simp only [QPoint.sub, QPoint.add, QPoint.mk.injEq]
    constructor <;> ring
  · rfl

/-- C4: for every state and every toolbar `t`, a second `setToolbar(t)` with the
same instance changes nothing: the whole state (hosted toolbar reference, layout
contents, parents and style sheets of the toolbars, and the rest) after
`setToolbar(t); setToolbar(t)` equals the state after one `setToolbar(t)`. -/
theorem setToolbar_idempotent (s : PDFGlassmorphismToolbar) (t : Option Nat) :
    (s.setToolbar t).setToolbar t = s.setToolbar t := by
  have h := setToolbar_m_toolbar s t
  generalize s.setToolbar t = s1 at h
  unfold setToolbar
  rw [if_pos h]

/-- C6, the claim fails: with toolbar 1 hosted, `setToolbar(nullptr)` changes the
hosted toolbar reference, the layout contents and the parent of toolbar 1. -/
theorem setToolbar_null_detaches_hosted :
    (hostingContainer.getToolbar = some 1 ∧
      (hostingContainer.setToolbar none).getToolbar = none) ∧
    (hostingContainer.layoutItems = [1] ∧
      (hostingContainer.setToolbar none).layoutItems = []) ∧
    (hostingContainer.toolbarParent 1 = ParentRef.container ∧
      (hostingContainer.setToolbar none).toolbarParent 1 = ParentRef.null) := by
  decide

/-- C6, amended: `setToolbar(nullptr)` changes nothing when no toolbar is hosted;
when toolbar `t` is hosted it detaches it: afterwards the hosted toolbar reference
is null, `t` is removed from the layout and the parent of `t` is null. -/
theorem setToolbar_null (s : PDFGlassmorphismToolbar) :
    match s.m_toolbar with
    | none => s.setToolbar none = s
    | some t =>
      (s.setToolbar none).getToolbar = none ∧
      (s.setToolbar none).layoutItems = s.layoutItems.erase t ∧
      (s.setToolbar none).toolbarParent t = ParentRef.null := by
  cases h : s.m_toolbar with
  | none => simp [setToolbar, h]
  | some t =>
    simp [setToolbar, h, getToolbar, layoutRemoveWidget, toolbarSetParentNull]

end PDFGlassmorphismToolbar

namespace PDFGlassmorphismStyle

/-- C5, the claim fails: for the tool-button panel with an option that has
neither the pointer-over nor the pressed flag, `drawPrimitive` only sets the
render hint and returns; the base style is not called. -/
theorem drawPrimitive_plain_button_not_delegated :
    plainButtonOption.testFlag State_MouseOver = false ∧
    plainButtonOption.testFlag State_Sunken = false ∧
    drawPrimitive ⟨200⟩ PrimitiveElement.PE_PanelButtonTool (some plainButtonOption)
      = [PaintOp.setRenderHintAntialiasing] ∧
    drawPrimitive ⟨200⟩ PrimitiveElement.PE_PanelButtonTool (some plainButtonOption)
      ≠ [PaintOp.baseDrawPrimitive PrimitiveElement.PE_PanelButtonTool
          (some plainButtonOption)] := by
  decide

/-- C5, amended: for the tool-button panel with a non-null option `drawPrimitive`
never calls the base style.  On every such call it first enables antialiasing on
the painter; then it fills the 6px-rounded path with the hover overlay exactly
when the pointer-over flag is set, and after that with the press overlay exactly
when the pressed flag is set; it issues nothing else, so with neither flag it
only enables antialiasing and fills nothing.  The base style is called, with the
arguments unchanged, exactly for the other primitives and for a null option. -/
theorem drawPrimitive_panel_button (palette : QPalette) (opt : QStyleOption) :
    (drawPrimitive palette PrimitiveElement.PE_PanelButtonTool (some opt)
      = PaintOp.setRenderHintAntialiasing ::
        ((if opt.testFlag State_MouseOver = true then
            [PaintOp.fillPath ⟨opt.rect, 6, 6⟩ (hoverOverlay (isDarkTheme palette))]
          else []) ++
         (if opt.testFlag State_Sunken = true then
            [PaintOp.fillPath ⟨opt.rect, 6, 6⟩ (pressOverlay (isDarkTheme palette))]
          else []))) ∧
    (PaintOp.setRenderHintAntialiasing ∈
      drawPrimitive palette PrimitiveElement.PE_PanelButtonTool (some opt)) ∧
    (∀ e o, PaintOp.baseDrawPrimitive e o ∉
      drawPrimitive palette PrimitiveElement.PE_PanelButtonTool (some opt)) ∧
    (opt.testFlag State_MouseOver = false ∧ opt.testFlag State_Sunken = false →
      drawPrimitive palette PrimitiveElement.PE_PanelButtonTool (some opt)
        = [PaintOp.setRenderHintAntialiasing]) ∧
    (PaintOp.fillPath ⟨opt.rect, 6, 6⟩ (hoverOverlay (isDarkTheme palette)) ∈
        drawPrimitive palette PrimitiveElement.PE_PanelButtonTool (some opt) ↔
      opt.testFlag State_MouseOver = true) ∧
    (PaintOp.fillPath ⟨opt.rect, 6, 6⟩ (pressOverlay (isDarkTheme palette)) ∈
        drawPrimitive palette PrimitiveElement.PE_PanelButtonTool (some opt) ↔
      opt.testFlag State_Sunken = true) ∧
    (∀ code o, drawPrimitive palette (PrimitiveElement.PE_Other code) o
      = [PaintOp.baseDrawPrimitive (PrimitiveElement.PE_Other code) o]) ∧
    (∀ e, drawPrimitive palette e none = [PaintOp.baseDrawPrimitive e none]) := by
  refine ⟨?_, ?_, ?_, ?_, ?_, ?_, ?_, ?_⟩
  · simp only [drawPrimitive, hoverOverlay, pressOverlay]
    cases isDarkTheme palette <;> cases opt.testFlag State_MouseOver <;>
      cases opt.testFlag State_Sunken <;> simp
  · simp [drawPrimitive]
  · intro e o
    simp only [drawPrimitive]
    split_ifs <;> simp
  · rintro ⟨h1, h2⟩
    simp [drawPrimitive, h1, h2]
  · simp only [drawPrimitive, hoverOverlay, pressOverlay]
    cases isDarkTheme palette <;> cases opt.testFlag State_MouseOver <;>
      cases opt.testFlag State_Sunken <;> simp
  · simp only [drawPrimitive, hoverOverlay, pressOverlay]
    cases isDarkTheme palette <;> cases opt.testFlag State_MouseOver <;>
      cases opt.testFlag State_Sunken <;> simp
  · intro code o
    rfl
  · intro e
    cases e <;> rfl

end PDFGlassmorphismStyle

namespace PDFGlassmorphismToolbar

/-- Helper: `updatePosition` keeps auto-hide quiet. -/
theorem quiet_updatePosition {s : PDFGlassmorphismToolbar} {n : Nat} (h : Quiet s n) :
    Quiet s.updatePosition n := by
  obtain ⟨p, hp⟩ := updatePosition_eq s
  rw [hp]
  exact h

/-- Helper: `resize` keeps auto-hide quiet. -/
theorem quiet_resize {s : PDFGlassmorphismToolbar} {n : Nat} (sz : QSize) (h : Quiet s n) :
    Quiet (s.resize sz) n := by
  obtain ⟨p, hp⟩ := resize_eq s sz
  rw [hp]
  exact h

/-- Helper: `setToolbar` keeps auto-hide quiet. -/
theorem quiet_setToolbar {s : PDFGlassmorphismToolbar} {n : Nat} (toolbar : Option Nat)
    (h : Quiet s n) : Quiet (s.setToolbar toolbar) n := by
  unfold setToolbar
  split
  · exact h
  · cases toolbar with
    | none =>
      cases s.m_toolbar with
      | none => exact h
      | some old => exact h
    | some t =>
      cases s.m_toolbar with
      | none => exact quiet_resize _ h
      | some old => exact quiet_resize _ h

/-- Helper: `showEvent` keeps auto-hide quiet. -/
theorem quiet_showEvent {s : PDFGlassmorphismToolbar} {n : Nat} (h : Quiet s n) :
    Quiet s.showEvent n := by
  have h1 := quiet_updatePosition h
  unfold showEvent
  simp only [h1.1]
  exact h1

/-- Helper: `show()` keeps auto-hide quiet. -/
theorem quiet_showWidget {s : PDFGlassmorphismToolbar} {n : Nat} (h : Quiet s n) :
    Quiet s.showWidget n := by
  unfold showWidget
  split
  · exact h
  · exact quiet_showEvent (s := { s with visible := true }) h

/-- Helper: `setOpacity` keeps auto-hide quiet. -/
theorem quiet_setOpacity {s : PDFGlassmorphismToolbar} {n : Nat} (x : ℚ) (h : Quiet s n) :
    Quiet (s.setOpacity x) n := h

/-- Helper: `showAnimated` keeps auto-hide quiet. -/
theorem quiet_showAnimated {s : PDFGlassmorphismToolbar} {n : Nat} (h : Quiet s n) :
    Quiet s.showAnimated n :=
  quiet_showWidget h

/-- Helper: delivering `finished` keeps auto-hide quiet. -/
theorem quiet_deliverFinished (k i : Nat) {s : PDFGlassmorphismToolbar} {n : Nat}
    (h : Quiet s n) : Quiet (deliverFinished k i s) n := by
  induction k generalizing i s with
  | zero => exact h
  | succ k ih =>
    unfold deliverFinished
    apply ih
    split
    · exact h
    · exact h

/-- Helper: every event other than `setAutoHideEnabled(true)` and `hideAnimated`
keeps auto-hide quiet. -/
theorem quiet_step {s : PDFGlassmorphismToolbar} {n : Nat} (e : Event)
    (he : e.keepsAutoHideOff = true) (h : Quiet s n) : Quiet (s.step e) n := by
  cases e with
  | setToolbar toolbar => exact quiet_setToolbar toolbar h
  | setPosition position =>
    exact quiet_updatePosition (s := { s with m_position := position }) h
  | setAutoHideEnabled enabled =>
    cases enabled with
    | true => simp [Event.keepsAutoHideOff] at he
    | false => exact ⟨rfl, rfl, h.2.2⟩
  | setAutoHideTimeout milliseconds => exact h
  | setOpacity opacity => exact h
  | showAnimated => exact quiet_showAnimated h
  | hideAnimated => simp [Event.keepsAutoHideOff] at he
  | showWidget => exact quiet_showWidget h
  | hideWidget => exact h
  | resizeWidget sz => exact quiet_resize sz h
  | mousePressEvent event =>
    simp only [step, mousePressEvent]
    split
    · exact h
    · exact h
  | mouseMoveEvent event =>
    simp only [step, mouseMoveEvent]
    split
    · exact h
    · exact h
  | mouseReleaseEvent event =>
    simp only [step, mouseReleaseEvent]
    split
    · exact h
    · exact h
  | enterEvent =>
    simp only [step, enterEvent, h.1]
    exact h
  | leaveEvent =>
    simp only [step, leaveEvent, h.1]
    exact h
  | resizeEvent => exact quiet_updatePosition h
  | showEvent => exact quiet_showEvent h
  | timerTimeout =>
    simp only [step, timerTimeout, h.2.1]
    exact h
  | animationTick progress =>
    simp only [step, animationTick]
    split
    · exact h
    · exact h
  | animationFinished =>
    simp only [step, animationFinished]
    split
    · exact quiet_deliverFinished _ _ (s := { s.setOpacity s.fadeEndValue with fadeRunning := false }) h
    · exact h

/-- Helper: a run of such events keeps auto-hide quiet. -/
theorem quiet_run (events : List Event) {s : PDFGlassmorphismToolbar} {n : Nat}
    (hall : ∀ e ∈ events, e.keepsAutoHideOff = true) (h : Quiet s n) :
    Quiet (s.run events) n := by
  induction events generalizing s with
  | nil => exact h
  | cons e es ih =>
    have he : e.keepsAutoHideOff = true := hall e (List.mem_cons_self e es)
    have hes : ∀ x ∈ es, x.keepsAutoHideOff = true :=
      fun x hx => hall x (List.mem_cons_of_mem e hx)
    exact ih hes (quiet_step e he h)

/-- C3: after `setAutoHideEnabled(true)` followed by `setAutoHideEnabled(false)` the
auto-hide timer is not armed, and along every subsequent sequence of events and
owner calls that contains no `setAutoHideEnabled(true)` and no direct
`hideAnimated` call, after every initial part of it, the timer is not armed and no
`hideAnimated` has been started. -/
theorem autoHide_disabled_stays_off (s : PDFGlassmorphismToolbar) (events : List Event)
    (hall : ∀ e ∈ events, e.keepsAutoHideOff = true) :
    s.autoHideSwitchedOff.timerActive = false ∧
    ∀ k, (s.autoHideSwitchedOff.run (events.take k)).timerActive = false ∧
      (s.autoHideSwitchedOff.run (events.take k)).hideAnimatedCalls
        = s.autoHideSwitchedOff.hideAnimatedCalls := by
  have h0 : Quiet s.autoHideSwitchedOff s.autoHideSwitchedOff.hideAnimatedCalls :=
    ⟨rfl, rfl, rfl⟩
  refine ⟨rfl, fun k => ?_⟩
  have hk : ∀ e ∈ events.take k, e.keepsAutoHideOff = true :=
    fun e he => hall e (List.mem_of_mem_take he)
  have h := quiet_run (events.take k) hk h0
  exact ⟨h.2.1, h.2.2⟩

/-- Witness of C3: a fresh container, auto-hide switched on and off, then a run of
events and owner calls. -/
theorem autoHide_disabled_stays_off_witness :
    (∀ e ∈ quietEvents, e.keepsAutoHideOff = true) ∧
    (freshContainer.autoHideSwitchedOff.run quietEvents).timerActive = false ∧
    (freshContainer.autoHideSwitchedOff.run quietEvents).hideAnimatedCalls = 0 := by
  have hall : ∀ e ∈ quietEvents, e.keepsAutoHideOff = true := by
    simp [quietEvents, Event.keepsAutoHideOff]
  exact ⟨hall, (autoHide_disabled_stays_off freshContainer quietEvents hall).2 8⟩

/-- Helper: an animation frame changes at most the opacity. -/
theorem animationTick_eq (s : PDFGlassmorphismToolbar) (progress : ℚ) :
    ∃ o, s.animationTick progress = { s with m_opacity := o } := by
  unfold animationTick
  split
  · exact ⟨_, rfl⟩
  · exact ⟨s.m_opacity, rfl⟩

/-- Helper: a sequence of animation frames changes at most the opacity. -/
theorem animationTicks_eq (ticks : List ℚ) (s : PDFGlassmorphismToolbar) :
    ∃ o, ticks.foldl animationTick s = { s with m_opacity := o } := by
  induction ticks generalizing s with
  | nil => exact ⟨s.m_opacity, rfl⟩
  | cons t ts ih =>
    obtain ⟨o1, h1⟩ := animationTick_eq s t
    obtain ⟨o2, h2⟩ := ih { s with m_opacity := o1 }
    exact ⟨o2, by rw [List.foldl_cons, h1, h2]⟩

/-- Helper: with no connection on `finished`, delivering it does nothing. -/
theorem deliverFinished_of_none (k i : Nat) (s : PDFGlassmorphismToolbar)
    (h : s.finishedConnections = 0) : deliverFinished k i s = s := by
  induction k generalizing i with
  | zero => rfl
  | succ k ih =>
    unfold deliverFinished
    simp only [h, Nat.not_lt_zero, if_false]
    exact ih (i + 1)

/-- Helper: with at least one connection on `finished`, emitting it runs the slot
of `hideAnimated` once. -/
theorem emitFinished_of_pos (s : PDFGlassmorphismToolbar) (h : 0 < s.finishedConnections) :
    s.emitFinished = s.hideAnimatedFinished := by
  unfold emitFinished
  obtain ⟨c, hc⟩ := Nat.exists_eq_succ_of_ne_zero (Nat.pos_iff_ne_zero.mp h)
  rw [hc]
  unfold deliverFinished
  rw [if_pos h]
  exact deliverFinished_of_none c 1 s.hideAnimatedFinished rfl

/-- Helper: `show()` makes the widget visible and changes at most the window
origin and the timer besides. -/
theorem showWidget_eq (s : PDFGlassmorphismToolbar) :
    ∃ p a i, s.showWidget =
      { s with visible := true, pos := p, timerActive := a, timerInterval := i } := by
  unfold showWidget
  split
  · rename_i hv
    refine ⟨s.pos, s.timerActive, s.timerInterval, ?_⟩
    cases s
    simp only at hv
    simp [hv]
  · obtain ⟨p, hp⟩ := updatePosition_eq { s with visible := true }
    unfold showEvent
    simp only [hp, resetAutoHideTimer, timerStart]
    split
    · exact ⟨p, true, s.m_autoHideTimeout, rfl⟩
    · exact ⟨p, s.timerActive, s.timerInterval, rfl⟩

/-- Helper: what `hideAnimated` leaves in the animation and on `finished`. -/
theorem hideAnimated_fields (s : PDFGlassmorphismToolbar) :
    s.hideAnimated.fadeRunning = true ∧ s.hideAnimated.fadeEndValue = 0 ∧
    0 < s.hideAnimated.finishedConnections :=
  ⟨rfl, rfl, Nat.succ_pos _⟩

/-- Helper: what `showAnimated` leaves in the widget, the animation and on
`finished`. -/
theorem showAnimated_fields (s : PDFGlassmorphismToolbar) :
    s.showAnimated.visible = true ∧ s.showAnimated.fadeRunning = true ∧
    s.showAnimated.fadeEndValue = 1 ∧
    s.showAnimated.finishedConnections = s.finishedConnections := by
  obtain ⟨p, a, i, hs⟩ := showWidget_eq s
  simp only [showAnimated, fadeStart, fadeStop, setOpacity, update, hs, and_self]

/-- Helper: the fields a sequence of animation frames leaves alone. -/
theorem animationTicks_fields (ticks : List ℚ) (s : PDFGlassmorphismToolbar) :
    (ticks.foldl animationTick s).visible = s.visible ∧
    (ticks.foldl animationTick s).fadeRunning = s.fadeRunning ∧
    (ticks.foldl animationTick s).fadeEndValue = s.fadeEndValue ∧
    (ticks.foldl animationTick s).finishedConnections = s.finishedConnections := by
  obtain ⟨o, ho⟩ := animationTicks_eq ticks s
  simp only [ho, and_self]

/-- Helper: completion of a running animation with a connected `hideAnimated`
slot and end value 0. -/
theorem animationFinished_of_hide (s : PDFGlassmorphismToolbar)
    (hr : s.fadeRunning = true) (he : s.fadeEndValue = 0)
    (hc : 0 < s.finishedConnections) :
    s.animationFinished.visible = false ∧ s.animationFinished.m_opacity = 0 ∧
    s.animationFinished.finishedConnections = 0 := by
  have e : s.animationFinished =
      hideAnimatedFinished { s.setOpacity s.fadeEndValue with fadeRunning := false } := by
    unfold animationFinished
    rw [if_pos hr]
    exact emitFinished_of_pos _ hc
  rw [e]
  refine ⟨rfl, ?_, rfl⟩
  simp [hideAnimatedFinished, hide, setOpacity, update, he, qBound, qMax, qMin]

/-- Helper: completion of a running animation with nothing connected and end
value 1. -/
theorem animationFinished_of_show (s : PDFGlassmorphismToolbar)
    (hr : s.fadeRunning = true) (he : s.fadeEndValue = 1)
    (hc : s.finishedConnections = 0) :
    s.animationFinished.visible = s.visible ∧ s.animationFinished.m_opacity = 1 := by
  have e : s.animationFinished =
      { s.setOpacity s.fadeEndValue with fadeRunning := false } := by
    unfold animationFinished
    rw [if_pos hr]
    exact deliverFinished_of_none _ _ _ hc
  rw [e]
  refine ⟨rfl, ?_⟩
  simp [setOpacity, update, he, qBound, qMax, qMin]

/-- C10: from any state, and however many times `hideAnimated` has been called
(`n + 1` calls here, on top of whatever the state's history left connected), when
the fade animation it started runs to completion the widget is hidden with opacity
0 and no connection remains on the animation's `finished` signal; the completion
of a later `showAnimated` animation then leaves the widget visible with opacity 1. -/
theorem hideAnimated_completion_hides_and_disconnects (s : PDFGlassmorphismToolbar)
    (n : Nat) (ticks later : List ℚ) :
    ((hideAnimated^[n + 1] s).fadeCompleted ticks).visible = false ∧
    ((hideAnimated^[n + 1] s).fadeCompleted ticks).opacity = 0 ∧
    ((hideAnimated^[n + 1] s).fadeCompleted ticks).finishedConnections = 0 ∧
    (((hideAnimated^[n + 1] s).fadeCompleted ticks).showAnimated.fadeCompleted
      later).visible = true ∧
    (((hideAnimated^[n + 1] s).fadeCompleted ticks).showAnimated.fadeCompleted
      later).opacity = 1 := by
  have h1 := hideAnimated_fields (hideAnimated^[n] s)
  rw [← Function.iterate_succ_apply' hideAnimated n s] at h1
  have t1 := animationTicks_fields ticks (hideAnimated^[n + 1] s)
  have h2 := animationFinished_of_hide (ticks.foldl animationTick (hideAnimated^[n + 1] s))
    (t1.2.1.trans h1.1) (t1.2.2.1.trans h1.2.1) (by rw [t1.2.2.2]; exact h1.2.2)
  have h3 := showAnimated_fields ((hideAnimated^[n + 1] s).fadeCompleted ticks)
  have t3 := animationTicks_fields later
    ((hideAnimated^[n + 1] s).fadeCompleted ticks).showAnimated
  have h4 := animationFinished_of_show
    (later.foldl animationTick ((hideAnimated^[n + 1] s).fadeCompleted ticks).showAnimated)
    (t3.2.1.trans h3.2.1) (t3.2.2.1.trans h3.2.2.1)
    (t3.2.2.2.trans (h3.2.2.2.trans h2.2.2))
  exact ⟨h2.1, h2.2.1, h2.2.2, h4.1.trans (t3.1.trans h3.1), h4.2⟩

/-- Helper: where nothing is connected to `finished` (no `hideAnimated` was
interrupted), a pointer-enter on the shown widget with auto-hide enabled and
opacity below 1 stops the timer, and the fade it starts ends with the widget
visible at opacity 1. -/
theorem enterEvent_fades_in_of_no_connection (s : PDFGlassmorphismToolbar)
    (ticks : List ℚ) (ha : s.m_autoHideEnabled = true) (hv : s.visible = true)
    (ho : s.m_opacity < 1) (hc : s.finishedConnections = 0) :
    s.enterEvent.timerActive = false ∧
    (s.enterEvent.fadeCompleted ticks).visible = true ∧
    (s.enterEvent.fadeCompleted ticks).opacity = 1 := by
  have e : s.enterEvent = s.timerStop.showAnimated := by
    unfold enterEvent
    rw [if_pos ha]
    exact if_pos ho
  have h3 := showAnimated_fields s.timerStop
  have t3 := animationTicks_fields ticks s.timerStop.showAnimated
  have h4 := animationFinished_of_show (ticks.foldl animationTick s.timerStop.showAnimated)
    (t3.2.1.trans h3.2.1) (t3.2.2.1.trans h3.2.2.1)
    (t3.2.2.2.trans (h3.2.2.2.trans hc))
  rw [e]
  refine ⟨?_, h4.1.trans (t3.1.trans h3.1), h4.2⟩
  have hv' : s.timerStop.visible = true := hv
  unfold showAnimated showWidget
  rw [if_pos hv']
  rfl

/-- C9, the code at the failing input: the container is shown, auto-hide is
enabled, the timer has fired and the fade-out has reached opacity 1/2 when the
pointer enters.  The enter event stops the timer and starts a fade to 1, but the
slot that `hideAnimated` connected is still connected, so when that fade finishes
the widget is hidden, at opacity 1. -/
theorem enterEvent_during_fadeOut_ends_hidden :
    (fadingOutContainer.isAutoHideEnabled = true ∧ fadingOutContainer.visible = true ∧
      fadingOutContainer.opacity = 1 / 2 ∧ fadingOutContainer.fadeRunning = true ∧
      fadingOutContainer.fadeEndValue = 0) ∧
    (fadingOutContainer.enterEvent.timerActive = false ∧
      fadingOutContainer.enterEvent.fadeRunning = true ∧
      fadingOutContainer.enterEvent.fadeEndValue = 1) ∧
    ((fadingOutContainer.enterEvent.fadeCompleted []).visible = false ∧
      (fadingOutContainer.enterEvent.fadeCompleted []).opacity = 1) := by
  have q1 : qBound 0 1 1 = 1 := by simp [qBound, qMax, qMin]
  have q2 : qBound 0 (1 + -2⁻¹) 1 = 2⁻¹ := by norm_num [qBound, qMax, qMin]
  have q3 : qBound 0 2⁻¹ 1 = 2⁻¹ := by norm_num [qBound, qMax, qMin]
  have q4 : ((2 : ℚ)⁻¹ < 1) := by norm_num
  simp [fadingOutContainer, freshContainer, fadeCompleted, run, step, new, showWidget, showEvent, updatePosition, move, sizeHint,
    resetAutoHideTimer, timerStart, timerStop, setAutoHideEnabled, timerTimeout,
    hideAnimated, fadeStart, fadeStop, setOpacity, update, animationTick, enterEvent,
    showAnimated, animationFinished, emitFinished, deliverFinished, hideAnimatedFinished,
    hide, isAutoHideEnabled, opacity, q1, q2, q3, q4]

end PDFGlassmorphismToolbar

end pdfviewer
